import Mathlib

/-!
Shallow embedding of `@aminnairi/react-translate` (src/unnamed/part_000,
src/unnamed/part_001, src/translate.ts).

The library is a factory `createTranslations<Locale>(initialLocale)` producing
`{LocaleProvider, useLocale, useTranslations}`.  Two variants of the binder
exist in the sources:

* part_000: `translate(key, language)` takes the locale explicitly;
* part_001: `useTranslations` reads the current locale via `useLocale()` and
  the returned `translate(key)` closes over it.

Embedding choices:

* `Locale` and translation keys are `String`s (the TS type parameter
  `Locale extends string`).
* A JavaScript value that is either a string or `undefined` is `JSValue`.
* A `Record<Locale, string>` is an association list `InnerMap`; a translation
  table `Record<string, Record<Locale, string>>` is an association list
  `Table`.  Property access that may miss yields `Option`/`JSValue.undefined`.
* React context/state: each mounted `LocaleProvider` owns one mutable cell
  holding the current locale.  A `World` is the list of all mounted provider
  cells of one factory instance; a component's context is `Option Nat`: the
  index of the nearest enclosing provider's cell, or `none` when the component
  is outside every provider (then `useContext` yields the `createContext`
  default value `{locale: initialLocale, setLocale: () => {}}`).
* A setter obtained from `useLocale` is reified as `SetterRef`: either the
  no-op setter of the context default, or the `useState` setter of provider
  cell `i`.  Invoking a setter is the state transition `invokeSetter`
  (React's `setState` with a plain value replaces the cell's content).
-/

namespace ReactTranslate

/-- A JavaScript value of type `string | undefined`. -/
inductive JSValue where
  | str : String → JSValue
  | undefined : JSValue
deriving DecidableEq, Repr

/-- Whether a `string | undefined` value actually is a string. -/
def JSValue.isString : JSValue → Bool
  | JSValue.str _ => true
  | JSValue.undefined => false

/-- `Record<Locale, string>`: the inner per-locale mapping of one key. -/
abbrev InnerMap : Type := List (String × String)

/-- `Record<string, Record<Locale, string>>`: a translation table. -/
abbrev Table : Type := List (String × InnerMap)

/-- Dictionary lookup `obj[k]` on an association list (misses give `none`,
the embedding of JavaScript's `undefined` for absent properties). -/
def recordGet {α : Type} (m : List (String × α)) (k : String) : Option α :=
  List.lookup k m

/-- part_001 lines 97–105 (and the body shared with part_000 lines 53–61):
```
function translate(key) {
  const translation = translations[key];
  if (!translation) { return ""; }
  return translation[locale];
}
```
The captured `locale` is passed explicitly (lambda-lifted closure). -/
def translate (translations : Table) (locale : String) (key : String) : JSValue :=
  match recordGet translations key with
  | none => JSValue.str ""
  | some translation =>
    match recordGet translation locale with
    | none => JSValue.undefined
    | some s => JSValue.str s

namespace V0

/-- part_000 lines 53–61: `translate(key, language)` of the first variant,
where the locale is an explicit second argument instead of a captured one. -/
def translate (translations : Table) (key : String) (language : String) : JSValue :=
  match recordGet translations key with
  | none => JSValue.str ""
  | some translation =>
    match recordGet translation language with
    | none => JSValue.undefined
    | some s => JSValue.str s

end V0

/-- Which state cell a `setLocale` function closes over: the context default's
`() => {}` or the `useState` setter of provider cell `i`. -/
inductive SetterRef where
  | noop : SetterRef
  | provider : Nat → SetterRef
deriving DecidableEq, Repr

/-- The value carried by `LocaleContext`: `{locale, setLocale}`. -/
structure LocaleContextValue where
  locale : String
  setter : SetterRef
deriving DecidableEq, Repr

/-- The mutable state of one factory instance: the current locale held by each
mounted `LocaleProvider`'s `useState` cell, indexed by mount order. -/
abbrev World : Type := List String

/-- part_001 lines 140–155: `LocaleProvider` mounts with
`useState<Locale>(initialLocale)`: a new cell seeded with `initialLocale`. -/
def mountProvider (initialLocale : String) (w : World) : World :=
  w ++ [initialLocale]

/-- part_001 lines 50–57 together with the `createContext` default of lines
112–115: `useLocale()` returns the `{locale, setLocale}` of the nearest
enclosing provider's context value, or the default
`{locale: initialLocale, setLocale: () => {}}` outside every provider. -/
def useLocale (initialLocale : String) (w : World) (ctx : Option Nat) :
    LocaleContextValue :=
  match ctx with
  | none => { locale := initialLocale, setter := SetterRef.noop }
  | some i =>
    match w[i]? with
    | none => { locale := initialLocale, setter := SetterRef.noop }
    | some l => { locale := l, setter := SetterRef.provider i }

/-- Invoking a `setLocale` with a plain value: the context default's setter
`() => {}` leaves every cell unchanged; a provider's `useState` setter
replaces that provider's cell verbatim (no validation). -/
def invokeSetter (w : World) (r : SetterRef) (l : String) : World :=
  match r with
  | SetterRef.noop => w
  | SetterRef.provider i => w.set i l

/-- The object returned by `useTranslations`. -/
structure UseTranslationsResult where
  translate : String → JSValue

/-- part_001 lines 94–110: `useTranslations(translations)` reads the current
locale via `useLocale()` and returns `{translate}` closing over it. -/
def useTranslations (initialLocale : String) (w : World) (ctx : Option Nat)
    (translations : Table) : UseTranslationsResult :=
  { translate := translate translations (useLocale initialLocale w ctx).locale }

/-- A JavaScript evaluation of `translate` that tracks exceptions: property
access `o[k]` on a possibly-`undefined` receiver `o` raises `TypeError` when
the receiver is absent.  `translate` only reaches `translation[locale]` after
the `if (!translation)` guard, which is what the embedding records. -/
def jsPropAccess (receiver : Option InnerMap) (k : String) :
    Except String JSValue :=
  match receiver with
  | none => Except.error "TypeError: cannot read properties of undefined"
  | some m =>
    match recordGet m k with
    | none => Except.ok JSValue.undefined
    | some s => Except.ok (JSValue.str s)

/-- part_001 lines 97–105 again, with the exception effect made explicit:
the outer miss is guarded (returns `""`), the inner access happens only on a
present receiver. -/
def translateE (translations : Table) (locale : String) (key : String) :
    Except String JSValue :=
  match recordGet translations key with
  | none => Except.ok (JSValue.str "")
  | some translation => jsPropAccess (some translation) locale

/-- One observable evaluation step of `translate(key)` in a component: it
reads the current locale from the context, computes the value, and leaves the
translation table and the locale state as they were (the body performs no
write). -/
def translateStep (initialLocale : String) (w : World) (ctx : Option Nat)
    (t : Table) (key : String) : JSValue × Table × World :=
  ((useTranslations initialLocale w ctx t).translate key, t, w)

/-! ### Helper lemmas -/

/-- The function returned by `useTranslations` is `translate` specialized to
the current locale read from the context. -/
theorem useTranslations_translate_def (initialLocale : String) (w : World)
    (ctx : Option Nat) (t : Table) (K : String) :
    (useTranslations initialLocale w ctx t).translate K
      = translate t (useLocale initialLocale w ctx).locale K := rfl

/-- `translate` on a key absent from the table. -/
theorem translate_of_outer_miss (t : Table) (l K : String)
    (h : recordGet t K = none) : translate t l K = JSValue.str "" := by
  unfold translate
  rw [h]

/-- `translate` on a present key whose inner mapping covers the locale. -/
theorem translate_of_hit (t : Table) (l K : String) (inner : InnerMap)
    (s : String) (hk : recordGet t K = some inner)
    (hl : recordGet inner l = some s) : translate t l K = JSValue.str s := by
  unfold translate
  rw [hk]
  dsimp only
  rw [hl]

/-- `translate` on a present key whose inner mapping misses the locale. -/
theorem translate_of_inner_miss (t : Table) (l K : String) (inner : InnerMap)
    (hk : recordGet t K = some inner) (hl : recordGet inner l = none) :
    translate t l K = JSValue.undefined := by
  unfold translate
  rw [hk]
  dsimp only
  rw [hl]

/-- When cell `i` exists, `useLocale` under provider `i` returns that cell's
locale together with that cell's setter. -/
theorem useLocale_in_provider (initialLocale : String) (w : World) (i : Nat)
    (hi : i < w.length) :
    useLocale initialLocale w (some i)
      = { locale := w[i], setter := SetterRef.provider i } := by
  unfold useLocale
  dsimp only
  rw [List.getElem?_eq_getElem hi]

/-! ### Claim theorems -/

/-- C1: for every translation table, every key `K` present in the table, and
every locale `L` for which the key's inner mapping has an entry, `translate(K)`
evaluated while the current locale is `L` returns exactly `table[K][L]`. -/
theorem C1_translate_present_key_present_locale
    (initialLocale : String) (w : World) (ctx : Option Nat) (t : Table)
    (K L : String) (inner : InnerMap) (s : String)
    (hloc : (useLocale initialLocale w ctx).locale = L)
    (hk : recordGet t K = some inner) (hl : recordGet inner L = some s) :
    (useTranslations initialLocale w ctx t).translate K = JSValue.str s := by
  rw [useTranslations_translate_def, hloc]
  exact translate_of_hit t L K inner s hk hl

/-- Witness for C1: the README scenario, table
`{title: {fr: Bonjour, en: Hello, es: Hola}}` in a provider whose cell holds
`"en"`. -/
theorem C1_translate_present_key_present_locale_witness :
    (useTranslations "fr" ["en"] (some 0)
        [("title", [("fr", "Bonjour"), ("en", "Hello"), ("es", "Hola")])]).translate
        "title"
      = JSValue.str "Hello" :=
  C1_translate_present_key_present_locale "fr" ["en"] (some 0)
    [("title", [("fr", "Bonjour"), ("en", "Hello"), ("es", "Hola")])]
    "title" "en" [("fr", "Bonjour"), ("en", "Hello"), ("es", "Hola")] "Hello"
    (by decide) (by decide) (by decide)

/-- C2: for a key present in the table whose inner mapping has no entry for
the current locale, `translate` returns `undefined`, not the empty string. -/
theorem C2_translate_inner_miss_is_undefined
    (initialLocale : String) (w : World) (ctx : Option Nat) (t : Table)
    (K : String) (inner : InnerMap)
    (hk : recordGet t K = some inner)
    (hl : recordGet inner (useLocale initialLocale w ctx).locale = none) :
    (useTranslations initialLocale w ctx t).translate K = JSValue.undefined ∧
    (useTranslations initialLocale w ctx t).translate K ≠ JSValue.str "" := by
  have h := translate_of_inner_miss t (useLocale initialLocale w ctx).locale K
    inner hk hl
  rw [useTranslations_translate_def, h]
  exact ⟨rfl, fun hc => JSValue.noConfusion hc⟩

/-- Witness for C2: key `title` present with only an `en` entry, current
locale `fr`. -/
theorem C2_translate_inner_miss_is_undefined_witness :
    (useTranslations "fr" ["fr"] (some 0)
        [("title", [("en", "Hello")])]).translate "title" = JSValue.undefined ∧
    (useTranslations "fr" ["fr"] (some 0)
        [("title", [("en", "Hello")])]).translate "title" ≠ JSValue.str "" :=
  C2_translate_inner_miss_is_undefined "fr" ["fr"] (some 0)
    [("title", [("en", "Hello")])] "title" [("en", "Hello")]
    (by decide) (by decide)

/-- Counterexample to C3 as stated: with table `{title: {en: Hello}}` and
current locale `fr`, `translate("title")` is `undefined`, not a string. -/
theorem C3_counterexample_not_a_string :
    ((useTranslations "fr" ["fr"] (some 0)
        [("title", [("en", "Hello")])]).translate "title").isString = false :=
  by decide

/-- C3 amended: `translate` returns a string except when the key is present
but its inner mapping has no entry for the current locale, in which case it
returns `undefined`. -/
theorem C3_amended_translate_string_unless_inner_miss
    (initialLocale : String) (w : World) (ctx : Option Nat) (t : Table)
    (K : String) :
    ((useTranslations initialLocale w ctx t).translate K).isString = true ∨
    ((useTranslations initialLocale w ctx t).translate K = JSValue.undefined ∧
      ∃ inner, recordGet t K = some inner ∧
        recordGet inner (useLocale initialLocale w ctx).locale = none) := by
  rw [useTranslations_translate_def]
  cases hk : recordGet t K with
  | none =>
    left
    rw [translate_of_outer_miss t _ K hk]
    rfl
  | some inner =>
    cases hl : recordGet inner (useLocale initialLocale w ctx).locale with
    | none =>
      right
      exact ⟨translate_of_inner_miss t _ K inner hk hl, inner, rfl, hl⟩
    | some s =>
      left
      rw [translate_of_hit t _ K inner s hk hl]
      rfl

/-- C4: for a key absent from the table, `translate` returns `""` whatever
the current locale is, with no exception raised (the evaluation with the
exception effect made explicit succeeds). -/
theorem C4_translate_absent_key_empty_string
    (initialLocale : String) (w : World) (ctx : Option Nat) (t : Table)
    (K : String) (h : recordGet t K = none) :
    (useTranslations initialLocale w ctx t).translate K = JSValue.str "" ∧
    translateE t (useLocale initialLocale w ctx).locale K
      = Except.ok (JSValue.str "") := by
  constructor
  · rw [useTranslations_translate_def]
    exact translate_of_outer_miss t _ K h
  · unfold translateE
    rw [h]

/-- Witness for C4: key `missing` absent from the README scenario table. -/
theorem C4_translate_absent_key_empty_string_witness :
    (useTranslations "fr" ["es"] (some 0)
        [("title", [("fr", "Bonjour"), ("en", "Hello"), ("es", "Hola")])]).translate
        "missing"
      = JSValue.str "" ∧
    translateE [("title", [("fr", "Bonjour"), ("en", "Hello"), ("es", "Hola")])]
        (useLocale "fr" ["es"] (some 0)).locale "missing"
      = Except.ok (JSValue.str "") :=
  C4_translate_absent_key_empty_string "fr" ["es"] (some 0)
    [("title", [("fr", "Bonjour"), ("en", "Hello"), ("es", "Hola")])]
    "missing" (by decide)

/-- C5: `useLocale` outside every provider returns the factory's
`initialLocale` with the no-op setter, and invoking that setter changes no
state cell, so every later `useLocale` read (inside or outside a provider) is
unaffected. -/
theorem C5_useLocale_outside_provider_fallback
    (initialLocale : String) (w : World) (l : String) (ctx : Option Nat) :
    useLocale initialLocale w none
      = { locale := initialLocale, setter := SetterRef.noop } ∧
    invokeSetter w (useLocale initialLocale w none).setter l = w ∧
    useLocale initialLocale
        (invokeSetter w (useLocale initialLocale w none).setter l) ctx
      = useLocale initialLocale w ctx :=
  ⟨rfl, rfl, rfl⟩

/-- C6: for locales `L1`, `L2` in the allowed set (including `L1 = L2`),
calling the setter obtained under provider `i` with `L2` while the current
locale is `L1` stores `L2` verbatim in cell `i`, and subsequent
`useLocale().locale` reads under that provider return `L2`. -/
theorem C6_setLocale_updates_current_locale
    (allowed : List String) (L1 L2 : String)
    (hL1 : L1 ∈ allowed) (hL2 : L2 ∈ allowed)
    (initialLocale : String) (w : World) (i : Nat) (hi : i < w.length)
    (hcur : (useLocale initialLocale w (some i)).locale = L1) :
    (invokeSetter w (useLocale initialLocale w (some i)).setter L2)[i]?
      = some L2 ∧
    (useLocale initialLocale
        (invokeSetter w (useLocale initialLocale w (some i)).setter L2)
        (some i)).locale
      = L2 := by
  have hsetter : (useLocale initialLocale w (some i)).setter
      = SetterRef.provider i := by
    rw [useLocale_in_provider initialLocale w i hi]
  rw [hsetter]
  have hset : (invokeSetter w (SetterRef.provider i) L2)[i]? = some L2 := by
    show (w.set i L2)[i]? = some L2
    exact List.getElem?_set_eq_of_lt L2 hi
  refine ⟨hset, ?_⟩
  unfold useLocale
  dsimp only
  rw [hset]

/-- Witness for C6: allowed set `[fr, en, es]`, one provider holding `fr`,
setter called with `en`. -/
theorem C6_setLocale_updates_current_locale_witness :
    (invokeSetter ["fr"] (useLocale "fr" ["fr"] (some 0)).setter "en")[0]?
      = some "en" ∧
    (useLocale "fr" (invokeSetter ["fr"] (useLocale "fr" ["fr"] (some 0)).setter "en")
        (some 0)).locale
      = "en" :=
  C6_setLocale_updates_current_locale ["fr", "en", "es"] "fr" "en"
    (by decide) (by decide) "fr" ["fr"] 0 (by decide) (by decide)

/-- C7: mutating provider `i`'s cell through its setter leaves every other
provider's `useLocale` result unchanged: there is no cross-subtree mutation
path. -/
theorem C7_independent_subtrees_do_not_interfere
    (initialLocale : String) (w : World) (i j : Nat) (hij : i ≠ j)
    (l : String) :
    useLocale initialLocale (invokeSetter w (SetterRef.provider i) l) (some j)
      = useLocale initialLocale w (some j) := by
  have hset : (invokeSetter w (SetterRef.provider i) l)[j]? = w[j]? := by
    show (w.set i l)[j]? = w[j]?
    exact List.getElem?_set_ne hij
  unfold useLocale
  dsimp only
  rw [hset]

/-- Witness for C7: two providers `[fr, en]`; setting cell `0` to `es` leaves
`useLocale` under provider `1` unchanged. -/
theorem C7_independent_subtrees_do_not_interfere_witness :
    useLocale "fr" (invokeSetter ["fr", "en"] (SetterRef.provider 0) "es")
        (some 1)
      = useLocale "fr" ["fr", "en"] (some 1) :=
  C7_independent_subtrees_do_not_interfere "fr" ["fr", "en"] 0 1
    (by decide) "es"

/-- C8: no operation raises an exception: the evaluation of `translate` with
the JavaScript exception effect made explicit always returns `Except.ok`,
with exactly the value the pure embedding computes, for every table, key,
locale state and context. -/
theorem C8_no_exception_raised
    (initialLocale : String) (w : World) (ctx : Option Nat) (t : Table)
    (K : String) :
    translateE t (useLocale initialLocale w ctx).locale K
      = Except.ok ((useTranslations initialLocale w ctx t).translate K) := by
  rw [useTranslations_translate_def]
  unfold translateE translate jsPropAccess
  cases recordGet t K with
  | none => rfl
  | some inner =>
    dsimp only
    cases recordGet inner (useLocale initialLocale w ctx).locale with
    | none => rfl
    | some s => rfl

/-- C9: the two source variants of the binder agree: part_000's
`translate(key, language)` equals part_001's `translate(key)` evaluated with
current locale `language`, for every table, key, and locale, and in
particular for the locale read from any context. -/
theorem C9_variant_equivalence
    (t : Table) (K L : String) (initialLocale : String) (w : World)
    (ctx : Option Nat) :
    V0.translate t K L = translate t L K ∧
    V0.translate t K (useLocale initialLocale w ctx).locale
      = (useTranslations initialLocale w ctx t).translate K :=
  ⟨rfl, rfl⟩

/-- C10: `translate` is deterministic and side-effect free: one evaluation
step leaves the table and the locale state unchanged, and re-evaluating in
the resulting state yields the identical value. -/
theorem C10_translate_deterministic_and_pure
    (initialLocale : String) (w : World) (ctx : Option Nat) (t : Table)
    (K : String) :
    (translateStep initialLocale w ctx t K).2.1 = t ∧
    (translateStep initialLocale w ctx t K).2.2 = w ∧
    (translateStep initialLocale (translateStep initialLocale w ctx t K).2.2
        ctx (translateStep initialLocale w ctx t K).2.1 K).1
      = (translateStep initialLocale w ctx t K).1 :=
  ⟨rfl, rfl, rfl⟩

end ReactTranslate
